import Mathlib

/-!
A shallow embedding of the conversation-orchestration core of the
`ordering-agent` repository (files `agents.py`, `llm_manager.py`,
`database.py`), together with proofs settling the frozen claims C1..C10.

Modelling conventions:
* Python strings are Lean `String`s; `str.lower`, `str.strip` and
  `str.split()` are modelled over their ASCII behaviour (`pyLower`,
  `pyStrip`, `pySplit`), which covers every token comparison the code
  performs (all control vocabulary and keywords are ASCII).
* The LLM backend is modelled by an oracle value (`LLMOutcome`): absent
  (no API key, `self.llm is None`), failing (the request raises), or
  replying with a string.  All deterministic-path claims instantiate the
  oracle with `absent`, the configuration in which `agent_executor` is
  `None` and every agent takes its `_fallback_extraction` / rule-based
  path.
* Python dicts are mutable objects shared by reference between the
  `AgentManager` context and the agents' `self.order_data` fields.  The
  embedding gives every record an allocation identity `rid` (a fresh
  number per Python `{}` literal) and threads values explicitly; every
  read in the source happens after the corresponding explicit
  assignment, so value threading reproduces the observable behaviour.
* `database.DatabaseManager.save_order` indexes
  `order_data['title'|'description'|'product_name'|'quantity']`, raising
  `KeyError` when a key is absent; an injected infrastructure failure
  (the claim C4 scenario) is modelled by the `dbErr` parameter.
  Python exceptions are modelled by the `AgentOut.exn` result.
-/

/-- ASCII lowering of one character, as Python `str.lower` acts on the
ASCII range. -/
def pyLowerChar (c : Char) : Char :=
  if 65 ≤ c.toNat ∧ c.toNat ≤ 90 then Char.ofNat (c.toNat + 32) else c

/-- Python `str.lower` (ASCII range). -/
def pyLower (s : String) : String := ⟨s.data.map pyLowerChar⟩

/-- Python whitespace, as `str.split()` and `str.strip()` use it
(space, tab, linefeed, carriage return, vertical tab, form feed). -/
def isPySpace (c : Char) : Bool :=
  c = ' ' || c = '\t' || c = '\n' || c = '\r' || c.toNat = 11 || c.toNat = 12

/-- Python `str.strip()`. -/
def pyStrip (s : String) : String :=
  ⟨((s.data.dropWhile isPySpace).reverse.dropWhile isPySpace).reverse⟩

/-- Helper of `pySplit`: splits at whitespace runs, dropping empty pieces. -/
def pySplitAux : List Char → List Char → List String
  | [], acc => if acc.isEmpty then [] else [⟨acc.reverse⟩]
  | c :: rest, acc =>
      if isPySpace c then
        if acc.isEmpty then pySplitAux rest []
        else String.mk acc.reverse :: pySplitAux rest []
      else pySplitAux rest (c :: acc)

/-- Python `str.split()` (no separator argument): split on whitespace
runs, no empty tokens. -/
def pySplit (s : String) : List String := pySplitAux s.data []

/-- Substring test on character lists: Python's `pat in hay`. -/
def listInfix (p : List Char) : List Char → Bool
  | [] => p.isEmpty
  | c :: rest => p.isPrefixOf (c :: rest) || listInfix p rest

/-- Python's `pat in hay` for strings. -/
def containsSub (hay pat : String) : Bool := listInfix pat.data hay.data

/-- Numeric value of a run of decimal digit characters. -/
def digitsVal (ds : List Char) : Nat :=
  ds.foldl (fun a c => 10 * a + (c.toNat - 48)) 0

/-- `re.search(r'(\d+)', s)` followed by `int(...)`: the first maximal
run of decimal digits in the text, as a number. -/
def firstNumber : List Char → Option Nat
  | [] => none
  | c :: rest =>
      if c.isDigit then some (digitsVal (c :: rest.takeWhile Char.isDigit))
      else firstNumber rest

/-! ## Classifier (`llm_manager.py`) -/

/-- `LLMManager._rule_based_classification`: the bulk keyword list. -/
def bulk_keywords : List String :=
  ["bulk", "wholesale", "reselling", "business", "company", "office",
   "event", "conference", "marathon", "onboarding", "employee", "team",
   "hundred", "thousand", "500", "1000", "large quantity", "mass order"]

/-- `LLMManager._rule_based_classification`: the generic keyword list. -/
def generic_keywords : List String :=
  ["personal", "home", "individual", "single", "one", "few", "small",
   "desk", "lamp", "furniture", "electronics", "personal use"]

/-- `LLMManager._rule_based_classification(description, type_of_request)`.
The `type_of_request` parameter is accepted and, as in the source, never
read. -/
def rule_based_classification (description : String)
    (type_of_request : Option String) : String :=
  let description_lower := pyLower description
  if bulk_keywords.any (fun keyword => containsSub description_lower keyword) then
    "bulk"
  else if generic_keywords.any (fun keyword => containsSub description_lower keyword) then
    "generic"
  else
    match firstNumber description.data with
    | some quantity =>
        if quantity ≥ 100 then "bulk"
        else if quantity ≤ 50 then "generic"
        else "generic"
    | none => "generic"

/-- The completion backend seen by one `classify_request` call: not
configured (`self.llm is None`), raising an error, or returning a
reply with the given content. -/
inductive LLMOutcome where
  | absent
  | failure
  | reply (content : String)

/-- `LLMManager.classify_request`: LLM-backed path when a backend is up,
accepting only a trimmed+lowercased reply equal to `"generic"` or
`"bulk"`; every other outcome falls back to the rule-based
classification. -/
def classify_request (llm : LLMOutcome) (description : String)
    (type_of_request : Option String) : String :=
  match llm with
  | .absent => rule_based_classification description type_of_request
  | .failure => rule_based_classification description type_of_request
  | .reply content =>
      let result := pyLower (pyStrip content)
      if result = "generic" || result = "bulk" then result
      else rule_based_classification description type_of_request

/-- Spec-side predicate: some bulk keyword occurs as a substring of the
lowercased description. -/
def bulkKeywordHit (description : String) : Bool :=
  bulk_keywords.any (fun keyword => containsSub (pyLower description) keyword)

/-- Spec-side predicate: some generic keyword occurs as a substring of
the lowercased description. -/
def genericKeywordHit (description : String) : Bool :=
  generic_keywords.any (fun keyword => containsSub (pyLower description) keyword)

/-- Helper: the fallback, rewritten through the two keyword-hit
predicates (definitional). -/
theorem rule_based_eq (d : String) (h : Option String) :
    rule_based_classification d h =
      (if bulkKeywordHit d then "bulk"
       else if genericKeywordHit d then "generic"
       else
         match firstNumber d.data with
         | some quantity =>
             if quantity ≥ 100 then "bulk"
             else if quantity ≤ 50 then "generic"
             else "generic"
         | none => "generic") := rfl

/-- Helper: the rule-based fallback only ever produces the two labels. -/
theorem rule_based_classification_total (d : String) (h : Option String) :
    rule_based_classification d h = "generic" ∨
      rule_based_classification d h = "bulk" := by
  rw [rule_based_eq]
  repeat' split
  all_goals first | exact Or.inl rfl | exact Or.inr rfl

/-- C5: `classify_request` is total over the two labels: for every
description (the empty string included), every hint (null included) and
every backend outcome (absent, erroring, or replying with an arbitrary
string), the result is exactly `"generic"` or `"bulk"` — never an error,
never a third value. -/
theorem classify_request_total (llm : LLMOutcome) (description : String)
    (hint : Option String) :
    classify_request llm description hint = "generic" ∨
      classify_request llm description hint = "bulk" := by
  cases llm with
  | absent => exact rule_based_classification_total description hint
  | failure => exact rule_based_classification_total description hint
  | reply content =>
      simp only [classify_request]
      split
      · next hcond => simpa using hcond
      · exact rule_based_classification_total description hint

/-- C6: the rule-based fallback evaluates its rules in a fixed priority
order: a bulk-keyword substring hit decides `"bulk"` outright (whatever
generic keywords or numbers are also present); otherwise a
generic-keyword hit decides `"generic"`; otherwise the first integer
literal decides (`≥ 100` bulk, `≤ 50` generic); in every remaining case
(first integer in 51..99, or no integer at all) the result is
`"generic"`. -/
theorem rule_based_priority (d : String) (h : Option String) :
    (bulkKeywordHit d = true → rule_based_classification d h = "bulk") ∧
    (bulkKeywordHit d = false → genericKeywordHit d = true →
      rule_based_classification d h = "generic") ∧
    (bulkKeywordHit d = false → genericKeywordHit d = false →
      ∀ q, firstNumber d.data = some q →
        (100 ≤ q → rule_based_classification d h = "bulk") ∧
        (q ≤ 50 → rule_based_classification d h = "generic") ∧
        (51 ≤ q → q ≤ 99 → rule_based_classification d h = "generic")) ∧
    (bulkKeywordHit d = false → genericKeywordHit d = false →
      firstNumber d.data = none → rule_based_classification d h = "generic") := by
  refine ⟨fun hb => ?_, fun hb hg => ?_, fun hb hg q hq => ?_, fun hb hg hn => ?_⟩ <;>
    rw [rule_based_eq]
  · simp [hb]
  · simp [hb, hg]
  · simp only [hb, hg, hq]
    refine ⟨fun h100 => ?_, fun h50 => ?_, fun h51 h99 => ?_⟩ <;>
      simp only [Bool.false_eq_true, if_false] <;>
      split <;> first | rfl | (exfalso; omega) | (split <;> first | rfl | (exfalso; omega))
  · simp [hb, hg, hn]

/-- Witness for C6 at a concrete input: "500 units" hits the bulk
keyword "500", so the fallback answers `"bulk"` even though the first
integer (500) is also large. -/
theorem rule_based_priority_witness :
    rule_based_classification "500 units for our marathon event" none = "bulk" :=
  (rule_based_priority "500 units for our marathon event" none).1 (by decide)

/-- C10: the rule-based fallback is independent of the routing hint:
`type_of_request` is never read on the deterministic path, so any two
hint values (null included) give the same label for every description. -/
theorem rule_based_hint_independent (d : String) (h1 h2 : Option String) :
    rule_based_classification d h1 = rule_based_classification d h2 := rfl

/-! ## OrderRecord, context and session state (`agents.py`) -/

/-- The order dict accumulated across agents.  Each Python key is an
`Option` field: `none` = key absent from the dict. -/
structure OrderRecord where
  title : Option String := none
  description : Option String := none
  order_type : Option String := none
  product_name : Option String := none
  quantity : Option Nat := none
  brand_preference : Option String := none
deriving DecidableEq, Repr

/-- An order dict together with its Python object identity: `rid` is a
number allocated freshly at each `{}` literal, so aliasing and
replacement of the shared mutable dict can be traced. -/
structure RecObj where
  rid : Nat
  val : OrderRecord
deriving DecidableEq, Repr

/-- A freshly allocated empty order dict. -/
def emptyRec (rid : Nat) : RecObj := ⟨rid, {}⟩

/-- The `AgentManager.context` dict. -/
structure Ctx where
  current_agent : String
  state : String
  order_data : RecObj
  type_of_request : Option String
  next_agent : Option String
deriving DecidableEq, Repr

/-- Whole-session state: the `AgentManager` fields plus each agent's
private `self.state` / `self.order_data`, and the allocation counter
for record identities. -/
structure Session where
  counter : Nat
  main_state : String
  main_order : RecObj
  gen_state : String
  gen_order : RecObj
  bulk_state : String
  bulk_order : RecObj
  current_agent : String
  ctx : Ctx
deriving DecidableEq, Repr

/-- The context `AgentManager.__init__` (and the reset branch) builds. -/
def initContext (rid : Nat) : Ctx :=
  { current_agent := "MainAgent", state := "waiting_for_title",
    order_data := emptyRec rid, type_of_request := none, next_agent := none }

/-- `AgentManager.__init__`: fresh `{}` dicts for the three agents and
the context; `current_agent = "MainAgent"`. -/
def initState : Session :=
  { counter := 4, main_state := "waiting_for_title", main_order := emptyRec 0,
    gen_state := "collecting_details", gen_order := emptyRec 1,
    bulk_state := "collecting_details", bulk_order := emptyRec 2,
    current_agent := "MainAgent", ctx := initContext 3 }

/-- `AgentManager.get_current_agent_name`:
`self.agents[self.current_agent].name`.  The three agents override
`self.name` in `__init__`. -/
def get_current_agent_name (s : Session) : String :=
  if s.current_agent = "MainAgent" then "Orchestrator"
  else if s.current_agent = "GenericOrderAgent" then "Generic"
  else if s.current_agent = "BulkOrderAgent" then "Bulk"
  else "KeyError"

/-! ## Decimal and JSON rendering (`BaseAgent.generate_final_output`,
`json.dumps(output, indent=2)`) -/

/-- The decimal digit character of `n < 10`. -/
def digitChar (n : Nat) : Char := Char.ofNat (48 + n)

/-- Decimal digits of a positive number, most significant first,
prepended to `acc`. -/
def natDigits : Nat → List Char → List Char
  | 0, acc => acc
  | n + 1, acc => natDigits ((n + 1) / 10) (digitChar ((n + 1) % 10) :: acc)
decreasing_by exact Nat.div_lt_self (Nat.succ_pos n) (by omega)

/-- Python `str(n)` for a non-negative int (as `json.dumps` and
f-strings render it). -/
def natLit (n : Nat) : String := if n = 0 then "0" else ⟨natDigits n []⟩

/-- `self.order_data.get('quantity', '')` rendered inside an f-string. -/
def showQuantityEmpty (q : Option Nat) : String :=
  match q with
  | some n => natLit n
  | none => ""

/-- `self.order_data.get('quantity', 'N/A')` rendered inside an f-string. -/
def showQuantityNA (q : Option Nat) : String :=
  match q with
  | some n => natLit n
  | none => "N/A"

/-- The lowercase hex digit of `n < 16` (CPython emits lowercase in
`\uXXXX` escapes). -/
def hexDigitChar (n : Nat) : Char :=
  if n < 10 then Char.ofNat (48 + n) else Char.ofNat (87 + n)

/-- Four lowercase hex digits of `n < 0x10000`. -/
def hex4 (n : Nat) : List Char :=
  [hexDigitChar (n / 4096 % 16), hexDigitChar (n / 256 % 16),
   hexDigitChar (n / 16 % 16), hexDigitChar (n % 16)]

/-- How `json.dumps` (default `ensure_ascii=True`) renders one character
inside a JSON string: backslash and quote escaped, the short escapes
for backspace, tab, newline, form feed and carriage return, printable
ASCII verbatim, every other character as `\uXXXX` (a surrogate pair
above the BMP). -/
def jsonEscapeChar (c : Char) : List Char :=
  if c = '\\' then ['\\', '\\']
  else if c = '"' then ['\\', '"']
  else if c.toNat = 8 then ['\\', 'b']
  else if c.toNat = 9 then ['\\', 't']
  else if c.toNat = 10 then ['\\', 'n']
  else if c.toNat = 12 then ['\\', 'f']
  else if c.toNat = 13 then ['\\', 'r']
  else if 32 ≤ c.toNat ∧ c.toNat ≤ 126 then [c]
  else if c.toNat < 65536 then '\\' :: 'u' :: hex4 c.toNat
  else
    let v := c.toNat - 65536
    ('\\' :: 'u' :: hex4 (55296 + v / 1024)) ++ '\\' :: 'u' :: hex4 (56320 + v % 1024)

/-- JSON escaping of a character list. -/
def escList : List Char → List Char
  | [] => []
  | c :: cs => jsonEscapeChar c ++ escList cs

/-- A JSON string literal as `json.dumps` emits it. -/
def jsonStr (s : String) : String := "\"" ++ String.mk (escList s.data) ++ "\""

/-- `BaseAgent.generate_final_output` for a non-empty order dict: the
five-key object in insertion order `title, description, product_name,
quantity, brand_preference`, rendered by `json.dumps(output, indent=2)`
(defaults for absent keys: `""` for the strings, `0` for quantity). -/
def generate_final_output (r : OrderRecord) : String :=
  "\x7b\n  \"title\": " ++ jsonStr (r.title.getD "") ++
  ",\n  \"description\": " ++ jsonStr (r.description.getD "") ++
  ",\n  \"product_name\": " ++ jsonStr (r.product_name.getD "") ++
  ",\n  \"quantity\": " ++ natLit (r.quantity.getD 0) ++
  ",\n  \"brand_preference\": " ++ jsonStr (r.brand_preference.getD "") ++
  "\n\x7d"

/-- `GenericOrderAgent._generate_order_summary` (the f-string after
`.strip()`). -/
def generic_order_summary (r : OrderRecord) : String :=
  "Here's the summary of your order:\n\nTitle: " ++ r.title.getD "N/A" ++
  "\nDescription: " ++ r.description.getD "N/A" ++
  "\nProduct: " ++ r.product_name.getD "N/A" ++
  "\nQuantity: " ++ showQuantityNA r.quantity ++
  "\nBrand Preference: " ++ r.brand_preference.getD "None" ++
  "\n\nPlease confirm if this is correct (yes/no)."

/-- `BulkOrderAgent._generate_order_summary` (the f-string after
`.strip()`). -/
def bulk_order_summary (r : OrderRecord) : String :=
  "Here's the summary of your bulk order:\n\nTitle: " ++ r.title.getD "N/A" ++
  "\nDescription: " ++ r.description.getD "N/A" ++
  "\nProduct: " ++ r.product_name.getD "N/A" ++
  "\nQuantity: " ++ showQuantityNA r.quantity ++
  "\nSupplier Preference: " ++ r.brand_preference.getD "None" ++
  "\n\nPlease confirm if this is correct (yes/no)."

/-! ## The agents' `process_message` methods and the router
(`agents.py`), on the deterministic path (`self.llm is None`, so
`agent_executor is None` and the fallback extraction runs). -/

/-- Outcome of one turn: a normal reply, or a Python exception
propagating out of `process_message` (the session keeps whatever
mutations happened before the raise).  `attempts` lists the records
passed as argument to `DatabaseManager.save_order` during the turn. -/
inductive AgentOut where
  | ok (s : Session) (response : String) (attempts : List RecObj)
  | exn (s : Session) (err : String) (attempts : List RecObj)
deriving DecidableEq, Repr

/-- `DatabaseManager.save_order`: indexes `order_data['title']`,
`['description']`, `['product_name']`, `['quantity']` in that order,
raising `KeyError` at the first absent key.  `dbErr` injects an
infrastructure failure thrown by the database layer itself (the
degraded-save scenario of claim C4). -/
def save_order_db (dbErr : Option String) (r : OrderRecord) : Except String Unit :=
  match dbErr with
  | some e => .error e
  | none =>
      if r.title = none then .error "KeyError: title"
      else if r.description = none then .error "KeyError: description"
      else if r.product_name = none then .error "KeyError: product_name"
      else if r.quantity = none then .error "KeyError: quantity"
      else .ok ()

/-- `MainAgent.process_message` (the Orchestrator).  The classifier is
called with the backend absent (`LLMOutcome.absent`): the rule-based
fallback, which the spec names the system of record. -/
def main_agent_step (s : Session) (u : String) : Session × String :=
  if s.main_state = "waiting_for_title" then
    let od : RecObj := { s.main_order with val := { s.main_order.val with title := some u } }
    let c : Ctx := { s.ctx with
      current_agent := "Orchestrator"
      state := "waiting_for_description"
      order_data := od }
    ({ s with
        main_state := "waiting_for_description"
        main_order := od
        ctx := c },
     "Describe the request.")
  else if s.main_state = "waiting_for_description" then
    let order_type := classify_request .absent u s.ctx.type_of_request
    let od : RecObj := { s.main_order with val := { s.main_order.val with
      description := some u
      order_type := some order_type } }
    let pick :=
      if order_type = "generic" then
        ("Classified as generic order. Handing off to Generic Order Agent...",
         "GenericOrderAgent")
      else
        ("Classified as bulk order. Handing off to Bulk Order Agent...",
         "BulkOrderAgent")
    let c : Ctx := { s.ctx with
      order_data := od
      next_agent := some pick.2
      current_agent := "Orchestrator"
      state := "handing_off" }
    ({ s with
        main_state := "classifying"
        main_order := od
        ctx := c },
     pick.1)
  else
    let od := emptyRec s.counter
    let c : Ctx := { s.ctx with state := "waiting_for_title", order_data := od }
    ({ s with
        counter := s.counter + 1
        main_state := "waiting_for_title"
        main_order := od
        ctx := c },
     "Please provide a title for this order.")

/-- `GenericOrderAgent._fallback_extraction`: sets `quantity` only when
the description holds a digit run (no default!), and `product_name` to
tokens 2-3 of the description, or the whole description when it has
fewer than three tokens. -/
def generic_fallback_extraction (description : String) (od : RecObj) : RecObj :=
  let od1 :=
    match firstNumber description.data with
    | some q => { od with val := { od.val with quantity := some q } }
    | none => od
  let words := pySplit description
  if words.length ≥ 3 then
    { od1 with val := { od1.val with
        product_name := some (String.intercalate " " ((words.drop 1).take 2)) } }
  else
    { od1 with val := { od1.val with product_name := some description } }

/-- `BulkOrderAgent._fallback_extraction`: line for line the same code
as the generic agent's (in particular, also without a quantity
default). -/
def bulk_fallback_extraction (description : String) (od : RecObj) : RecObj :=
  let od1 :=
    match firstNumber description.data with
    | some q => { od with val := { od.val with quantity := some q } }
    | none => od
  let words := pySplit description
  if words.length ≥ 3 then
    { od1 with val := { od1.val with
        product_name := some (String.intercalate " " ((words.drop 1).take 2)) } }
  else
    { od1 with val := { od1.val with product_name := some description } }

/-- The affirmative vocabulary `["yes", "yeah", "yep", "sure"]`. -/
def affirmative_tokens : List String := ["yes", "yeah", "yep", "sure"]

/-- The confirmation vocabulary (affirmatives plus "confirm"/"ok"). -/
def confirm_tokens : List String := ["yes", "yeah", "yep", "sure", "confirm", "ok"]

/-- Common exit of `GenericOrderAgent.process_message`: store the new
phase and record in `self`, push `current_agent`/`state`/`order_data`
into the context. -/
def generic_finish (s : Session) (od : RecObj) (st : String)
    (next : Option String) (response : String) (attempts : List RecObj) : AgentOut :=
  let c : Ctx := { s.ctx with
    current_agent := "Generic"
    state := st
    order_data := od
    next_agent := next }
  AgentOut.ok { s with gen_state := st, gen_order := od, ctx := c } response attempts

/-- `GenericOrderAgent.process_message` on the deterministic path.  At
entry `self.order_data = context["order_data"]` (the key is always
present).  In the confirming branch the database call is made directly,
with no try/except: a save error is a raised exception. -/
def generic_agent_step (dbErr : Option String) (s : Session) (u : String) : AgentOut :=
  let od0 := s.ctx.order_data
  if s.gen_state = "collecting_details" then
    let description := od0.val.description.getD ""
    let od := generic_fallback_extraction description od0
    generic_finish s od "asking_brand_preference" s.ctx.next_agent
      ("Confirming order for " ++ showQuantityEmpty od.val.quantity ++ " " ++
       od.val.product_name.getD "items" ++ ". Any brand or vendor preference?") []
  else if s.gen_state = "asking_brand_preference" then
    if affirmative_tokens.contains (pyLower u) then
      generic_finish s od0 "collecting_brand" s.ctx.next_agent
        "Please specify the brand or vendor preference." []
    else
      let od := { od0 with val := { od0.val with brand_preference := some "None" } }
      generic_finish s od "confirming" s.ctx.next_agent (generic_order_summary od.val) []
  else if s.gen_state = "collecting_brand" then
    let od := { od0 with val := { od0.val with brand_preference := some u } }
    generic_finish s od "confirming" s.ctx.next_agent (generic_order_summary od.val) []
  else if s.gen_state = "confirming" then
    if confirm_tokens.contains (pyLower u) then
      match save_order_db dbErr od0.val with
      | .error e => AgentOut.exn { s with gen_order := od0 } e [od0]
      | .ok _ =>
          let response := "Order confirmed and saved!\n\n📋 **Final Output:**\n```json\n" ++
            generate_final_output od0.val ++
            "\n```\n\nIs there anything else you'd like to order?"
          let odNew := emptyRec s.counter
          generic_finish { s with counter := s.counter + 1 } odNew
            "collecting_details" (some "MainAgent") response [od0]
    else
      generic_finish s od0 "confirming" s.ctx.next_agent
        "Let me know if you want to make any changes to the order." []
  else
    generic_finish s od0 "collecting_details" s.ctx.next_agent
      "I'm here to help with your order. What would you like to order?" []

/-- Common exit of `BulkOrderAgent.process_message`. -/
def bulk_finish (s : Session) (od : RecObj) (st : String)
    (next : Option String) (response : String) (attempts : List RecObj) : AgentOut :=
  let c : Ctx := { s.ctx with
    current_agent := "Bulk"
    state := st
    order_data := od
    next_agent := next }
  AgentOut.ok { s with bulk_state := st, bulk_order := od, ctx := c } response attempts

/-- `BulkOrderAgent.process_message` on the deterministic path
(structure identical to the generic agent, with the supplier
vocabulary). -/
def bulk_agent_step (dbErr : Option String) (s : Session) (u : String) : AgentOut :=
  let od0 := s.ctx.order_data
  if s.bulk_state = "collecting_details" then
    let description := od0.val.description.getD ""
    let od := bulk_fallback_extraction description od0
    bulk_finish s od "asking_supplier_preference" s.ctx.next_agent
      ("Confirming bulk order of " ++ showQuantityEmpty od.val.quantity ++ " " ++
       od.val.product_name.getD "items" ++ ". Any supplier preference?") []
  else if s.bulk_state = "asking_supplier_preference" then
    if affirmative_tokens.contains (pyLower u) then
      bulk_finish s od0 "collecting_supplier" s.ctx.next_agent
        "Please specify the supplier preference." []
    else
      let od := { od0 with val := { od0.val with brand_preference := some "None" } }
      bulk_finish s od "confirming" s.ctx.next_agent (bulk_order_summary od.val) []
  else if s.bulk_state = "collecting_supplier" then
    let od := { od0 with val := { od0.val with brand_preference := some u } }
    bulk_finish s od "confirming" s.ctx.next_agent (bulk_order_summary od.val) []
  else if s.bulk_state = "confirming" then
    if confirm_tokens.contains (pyLower u) then
      match save_order_db dbErr od0.val with
      | .error e => AgentOut.exn { s with bulk_order := od0 } e [od0]
      | .ok _ =>
          let response := "Bulk order confirmed and saved!\n\n📋 **Final Output:**\n```json\n" ++
            generate_final_output od0.val ++
            "\n```\n\nIs there anything else you'd like to order?"
          let odNew := emptyRec s.counter
          bulk_finish { s with counter := s.counter + 1 } odNew
            "collecting_details" (some "MainAgent") response [od0]
    else
      bulk_finish s od0 "confirming" s.ctx.next_agent
        "Let me know if you want to make any changes to the order." []
  else
    bulk_finish s od0 "collecting_details" s.ctx.next_agent
      "I'm here to help with your bulk order. What would you like to order?" []

/-- The reset control vocabulary checked by
`AgentManager.process_message`. -/
def reset_tokens : List String := ["start over", "reset", "new order", "restart"]

/-- The fixed reset reply. -/
def reset_reply : String := "Starting fresh! Please provide a title for your order."

/-- The reset branch of `AgentManager.process_message`: `current_agent`
back to `"MainAgent"` and a fresh context with a fresh empty order
dict.  The agents' private `self.state` and `self.order_data` fields
are NOT touched (source: only `self.current_agent` and `self.context`
are reassigned). -/
def reset_session (s : Session) : Session :=
  { s with
      current_agent := "MainAgent"
      ctx := initContext s.counter
      counter := s.counter + 1 }

/-- The handoff step at the end of `AgentManager.process_message`: when
the returned context carries `next_agent` naming a known agent, switch
to it and clear the flag. -/
def apply_handoff (s : Session) : Session :=
  match s.ctx.next_agent with
  | some next =>
      if next = "MainAgent" ∨ next = "GenericOrderAgent" ∨ next = "BulkOrderAgent" then
        { s with
            current_agent := next
            ctx := { s.ctx with current_agent := next, next_agent := none } }
      else s
  | none => s

/-- `AgentManager.process_message`: the reset check (lowercased input
against the reset vocabulary, before any dispatch), then dispatch to
the current agent and the handoff step. -/
def process_message (dbErr : Option String) (s : Session) (u : String) : AgentOut :=
  if reset_tokens.contains (pyLower u) then
    .ok (reset_session s) reset_reply []
  else if s.current_agent = "MainAgent" then
    let out := main_agent_step s u
    .ok (apply_handoff out.1) out.2 []
  else if s.current_agent = "GenericOrderAgent" then
    match generic_agent_step dbErr s u with
    | .ok s1 response attempts => .ok (apply_handoff s1) response attempts
    | .exn s1 e attempts => .exn s1 e attempts
  else if s.current_agent = "BulkOrderAgent" then
    match bulk_agent_step dbErr s u with
    | .ok s1 response attempts => .ok (apply_handoff s1) response attempts
    | .exn s1 e attempts => .exn s1 e attempts
  else .exn s "KeyError" []

/-- A whole driver run (`main.py` catches a raised turn with an error
banner and keeps the manager): final session, replies in order, and the
`save_order` call log (record passed, flag true when the save
succeeded and the turn completed). -/
structure RunResult where
  s : Session
  replies : List String
  log : List (RecObj × Bool)
deriving DecidableEq, Repr

/-- Run a list of user turns through `process_message`. -/
def run (dbErr : Option String) (s : Session) : List String → RunResult
  | [] => ⟨s, [], []⟩
  | u :: rest =>
      match process_message dbErr s u with
      | .ok s1 response attempts =>
          let r := run dbErr s1 rest
          ⟨r.s, response :: r.replies, attempts.map (fun a => (a, true)) ++ r.log⟩
      | .exn s1 e attempts =>
          let r := run dbErr s1 rest
          ⟨r.s, ("Sorry, I encountered an error: " ++ e) :: r.replies,
            attempts.map (fun a => (a, false)) ++ r.log⟩

/-- The records actually persisted over a run: successful save calls. -/
def persisted (r : RunResult) : List RecObj :=
  (r.log.filter (fun p => p.2)).map (fun p => p.1)

/-! ## Observable state (dict contents, identities erased) -/

/-- Observable part of a context: the record's dict contents without
its object identity. -/
structure CtxObs where
  current_agent : String
  state : String
  order_val : OrderRecord
  type_of_request : Option String
  next_agent : Option String
deriving DecidableEq, Repr

/-- Observation of a context. -/
def ctxObs (c : Ctx) : CtxObs :=
  ⟨c.current_agent, c.state, c.order_data.val, c.type_of_request, c.next_agent⟩

/-- Observable session state: every Python-visible value (dict
contents, phases, active agent), with object identities and the
allocation counter erased. -/
structure SessionObs where
  main_state : String
  main_val : OrderRecord
  gen_state : String
  gen_val : OrderRecord
  bulk_state : String
  bulk_val : OrderRecord
  current_agent : String
  ctx : CtxObs
deriving DecidableEq, Repr

/-- Observation of a session. -/
def sessionObs (s : Session) : SessionObs :=
  ⟨s.main_state, s.main_order.val, s.gen_state, s.gen_order.val,
   s.bulk_state, s.bulk_order.val, s.current_agent, ctxObs s.ctx⟩

/-! ## Claims about the session state machine -/

/-- The six turns of the spec's generic end-to-end scenario. -/
def example_flow_inputs : List String :=
  ["I need 10 wooden desks", "Wooden Desk Order",
   "10 wooden desks for the new conference room.", "Yes", "UrbanCraft", "Yes"]

/-- C1, evaluated on the code: the six scenario turns persist NO order
record at all.  The Orchestrator stores turn 1 as the title and turn 2
as the description, extraction therefore runs on "Wooden Desk Order"
(no digits, so no quantity is ever set), and the save on turn 6 raises
`KeyError: 'quantity'` inside `DatabaseManager.save_order`, aborting
the turn; the active handler stays the Generic agent.  This diverges
from the claimed persisted record
`{title: "Wooden Desk Order", ..., quantity: 10, ...}` and from the
claimed return of control to the Orchestrator. -/
theorem example_flow_divergence :
    persisted (run none initState example_flow_inputs) = [] ∧
    (run none initState example_flow_inputs).log =
      [(⟨0, { title := some "I need 10 wooden desks",
              description := some "Wooden Desk Order",
              order_type := some "generic",
              product_name := some "Desk Order",
              quantity := none,
              brand_preference := some "UrbanCraft" }⟩, false)] ∧
    (run none initState example_flow_inputs).replies.getLast? =
      some "Sorry, I encountered an error: KeyError: quantity" ∧
    get_current_agent_name (run none initState example_flow_inputs).s = "Generic" :=
  ⟨rfl, rfl, rfl, rfl⟩

/-- C2, counterexample: the reset check lowercases but never trims.
The input `" reset "` (whose trimmed, lowercased text equals the reset
token `"reset"`) is NOT treated as a reset: from the fresh session it
is stored as the order title and answered with "Describe the
request.", not with the fixed starting-fresh reply. -/
theorem reset_trim_counterexample :
    pyStrip (pyLower " reset ") = "reset" ∧
    process_message none initState " reset " =
      .ok { initState with
              main_state := "waiting_for_description"
              main_order := ⟨0, { title := some " reset " }⟩
              ctx := { current_agent := "Orchestrator"
                       state := "waiting_for_description"
                       order_data := ⟨0, { title := some " reset " }⟩
                       type_of_request := none
                       next_agent := none } }
        "Describe the request." [] :=
  ⟨rfl, rfl⟩

/-- C2, amended: for every session state and every input whose
lowercased text equals a reset token EXACTLY (no trimming),
`process_message` bypasses the active handler and yields the fixed
post-state — active handler back to the Orchestrator, context phase
`waiting_for_title`, empty OrderRecord, no hint, no pending handoff —
with the fixed starting-fresh reply; and a second reset from that
post-state is answered identically and changes nothing observable
(idempotence of reset). -/
theorem reset_exact_lowercase (dbErr : Option String) (s : Session) (u : String)
    (h : reset_tokens.contains (pyLower u) = true) :
    process_message dbErr s u = .ok (reset_session s) reset_reply [] ∧
    get_current_agent_name (reset_session s) = "Orchestrator" ∧
    (reset_session s).ctx.state = "waiting_for_title" ∧
    (reset_session s).ctx.order_data.val = {} ∧
    (reset_session s).ctx.type_of_request = none ∧
    (reset_session s).ctx.next_agent = none ∧
    process_message dbErr (reset_session s) u =
      .ok (reset_session (reset_session s)) reset_reply [] ∧
    sessionObs (reset_session (reset_session s)) = sessionObs (reset_session s) := by
  have h' : pyLower u ∈ reset_tokens := by simpa using h
  refine ⟨?_, rfl, rfl, rfl, rfl, rfl, ?_, rfl⟩ <;> simp [process_message, h']

/-- Witness for C2 at a concrete input: "RESET" lowercases to a reset
token and is processed as a reset from the fresh session. -/
theorem reset_exact_lowercase_witness :
    reset_tokens.contains (pyLower "RESET") = true ∧
    process_message none initState "RESET" =
      .ok (reset_session initState) reset_reply [] :=
  ⟨by decide, (reset_exact_lowercase none initState "RESET" (by decide)).1⟩

/-- C3, evaluated on the code: the deterministic `_fallback_extraction`
of BOTH flows applies NO quantity default.  On the digit-free
description "need some bottles" the generic flow's collecting_details
turn leaves the record without any quantity (the claim says
quantity = 1), and the bulk flow likewise (the claim says 100); only
`product_name` is always produced.  (The agents' own tool functions
`extract_order_details` / `extract_bulk_order_details` in the same file
do default to 1 resp. 100 — the fallback omits it.) -/
theorem fallback_extraction_no_default :
    (generic_fallback_extraction "need some bottles" (emptyRec 0)).val.quantity = none ∧
    (bulk_fallback_extraction "need some bottles" (emptyRec 0)).val.quantity = none ∧
    (generic_fallback_extraction "need some bottles" (emptyRec 0)).val.product_name =
      some "some bottles" ∧
    (run none initState ["Bottle Order", "need some bottles", "x"]).s.gen_state =
      "asking_brand_preference" ∧
    (run none initState ["Bottle Order", "need some bottles", "x"]).s.gen_order.val =
      { title := some "Bottle Order", description := some "need some bottles",
        order_type := some "generic", product_name := some "some bottles" } ∧
    (run none initState ["Bulk Bottles", "office bottles restock", "x"]).s.bulk_state =
      "asking_supplier_preference" ∧
    (run none initState ["Bulk Bottles", "office bottles restock", "x"]).s.bulk_order.val =
      { title := some "Bulk Bottles", description := some "office bottles restock",
        order_type := some "bulk", product_name := some "bottles restock" } :=
  ⟨rfl, rfl, rfl, rfl, rfl, rfl, rfl⟩

/-- A session sitting in the Generic agent's confirming phase with a
fully populated record (reached by four ordinary turns). -/
def c4_state : Session := (run none initState ["Desk Order", "2 small desks", "x", "no"]).s

/-- C4, evaluated on the code: when the database raises during a
confirming turn, the confirming branch (which calls
`db_manager.save_order` directly, without the try/except of the
`save_order` tool wrapper) lets the exception propagate out of
`process_message`: there is NO degraded "Error saving order: <cause>"
reply.  The in-memory record is indeed left unchanged and the phase
stays `confirming`, so a retry with a healthy database persists the
same record. -/
theorem save_failure_raises :
    c4_state.gen_state = "confirming" ∧
    c4_state.ctx.order_data =
      ⟨0, { title := some "Desk Order", description := some "2 small desks",
            order_type := some "generic", product_name := some "small desks",
            quantity := some 2, brand_preference := some "None" }⟩ ∧
    process_message (some "disk full") c4_state "yes" =
      .exn { c4_state with gen_order := c4_state.ctx.order_data } "disk full"
        [c4_state.ctx.order_data] ∧
    persisted (run (some "disk full") c4_state ["yes"]) = [] ∧
    persisted (run none { c4_state with gen_order := c4_state.ctx.order_data } ["yes"]) =
      [c4_state.ctx.order_data] :=
  ⟨rfl, rfl, rfl, rfl, rfl⟩

/-- A 12-turn script: a bulk order driven to its supplier-preference
phase, a reset, a wasted turn, a new title, a SECOND reset issued while
the Bulk agent's leftover phase is still `collecting_supplier`, and a
new order completed. -/
def c7_inputs : List String :=
  ["Bulk Stock", "wholesale stock", "x", "yes", "reset", "hello",
   "Title2", "reset", "3 personal desks", "x", "no", "yes"]

/-- C7, evaluated on the code: a reset processed while a bulk/generic
handler is in its preference-collection phase does NOT always discard
the in-progress record.  After the first 7 turns the Bulk agent's
phase is `collecting_supplier` and the in-progress record (object 5,
title "Title2") is held by the Orchestrator mid-intake; turn 8 is a
genuine reset, yet the SAME object — its pre-reset title included — is
later passed to `save_order` and persisted, because the reset never
clears the Orchestrator's internal `self.order_data` alias or its
phase. -/
theorem reset_resurrection :
    (run none initState (c7_inputs.take 7)).s.bulk_state = "collecting_supplier" ∧
    (run none initState (c7_inputs.take 7)).s.ctx.order_data =
      ⟨5, { title := some "Title2" }⟩ ∧
    process_message none (run none initState (c7_inputs.take 7)).s "reset" =
      .ok (reset_session (run none initState (c7_inputs.take 7)).s) reset_reply [] ∧
    persisted (run none initState c7_inputs) =
      [⟨5, { title := some "Title2", description := some "3 personal desks",
             order_type := some "generic", product_name := some "personal desks",
             quantity := some 3, brand_preference := some "None" }⟩] :=
  ⟨rfl, rfl, rfl, rfl⟩

/-! ## Provider switching (`AgentManager.switch_llm_provider`,
`LLMManager.switch_provider`) -/

/-- `LLMManager` state: the provider name and whether
`_initialize_llm` produced a backend. -/
structure LLMManagerState where
  provider : String
  llm_available : Bool
deriving DecidableEq, Repr

/-- `AgentManager` as a whole: the shared `LLMManager` plus the
conversation state.  The agents' `agent_executor` fields are derived
from `llm_available` (re-created by `_initialize_agent`, which assigns
nothing else). -/
structure AgentManagerState where
  llm : LLMManagerState
  session : Session
deriving DecidableEq, Repr

/-- `AgentManager.switch_llm_provider`: switch the `LLMManager` to the
new provider and re-initialize the backend (`init` says whether the
environment holds a key for a provider), then re-initialize each
agent's executor.  No conversation field is assigned. -/
def switch_llm_provider (init : String → Bool) (m : AgentManagerState)
    (new_provider : String) : AgentManagerState :=
  { m with llm := { provider := new_provider, llm_available := init new_provider } }

/-- C9: switching the classifier's LLM provider re-initializes the
backend but leaves the whole conversation state unchanged: the active
handler, every handler's phase, the stored context and the in-progress
OrderRecord are identical before and after the switch, for every
session state and environment. -/
theorem switch_provider_frame (init : String → Bool) (m : AgentManagerState)
    (p : String) :
    (switch_llm_provider init m p).llm.provider = p ∧
    (switch_llm_provider init m p).llm.llm_available = init p ∧
    (switch_llm_provider init m p).session = m.session ∧
    (switch_llm_provider init m p).session.current_agent = m.session.current_agent ∧
    (switch_llm_provider init m p).session.main_state = m.session.main_state ∧
    (switch_llm_provider init m p).session.gen_state = m.session.gen_state ∧
    (switch_llm_provider init m p).session.bulk_state = m.session.bulk_state ∧
    (switch_llm_provider init m p).session.ctx = m.session.ctx ∧
    (switch_llm_provider init m p).session.ctx.order_data = m.session.ctx.order_data :=
  ⟨rfl, rfl, rfl, rfl, rfl, rfl, rfl, rfl, rfl⟩

/-! ## Re-parsing the canonical output (claim C8): a standard JSON
reader for the exact `json.dumps(..., indent=2)` five-key skeleton. -/

/-- Hex digit value of a character. -/
def hexVal (c : Char) : Option Nat :=
  if 48 ≤ c.toNat ∧ c.toNat ≤ 57 then some (c.toNat - 48)
  else if 97 ≤ c.toNat ∧ c.toNat ≤ 102 then some (c.toNat - 87)
  else if 65 ≤ c.toNat ∧ c.toNat ≤ 70 then some (c.toNat - 55)
  else none

/-- The character of a Unicode scalar value, when valid. -/
def mkChar? (n : Nat) : Option Char :=
  if h : n.isValidChar then some (Char.ofNatAux n h) else none

/-- Decode one `\uXXXX` escape (after the `\u`), recombining a
surrogate pair; rejects an unpaired surrogate. -/
def decodeU (l : List Char) : Option (Char × List Char) :=
  match l with
  | h1 :: h2 :: h3 :: h4 :: rest3 =>
    match hexVal h1, hexVal h2, hexVal h3, hexVal h4 with
    | some x1, some x2, some x3, some x4 =>
      let n := 4096 * x1 + 256 * x2 + 16 * x3 + x4
      if 55296 ≤ n ∧ n ≤ 56319 then
        match rest3 with
        | b1 :: b2 :: g1 :: g2 :: g3 :: g4 :: rest4 =>
          if b1 = '\\' ∧ b2 = 'u' then
            match hexVal g1, hexVal g2, hexVal g3, hexVal g4 with
            | some y1, some y2, some y3, some y4 =>
              let m := 4096 * y1 + 256 * y2 + 16 * y3 + y4
              if 56320 ≤ m ∧ m ≤ 57343 then
                match mkChar? (65536 + (n - 55296) * 1024 + (m - 56320)) with
                | some ch => some (ch, rest4)
                | none => none
              else none
            | _, _, _, _ => none
          else none
        | _ => none
      else if 56320 ≤ n ∧ n ≤ 57343 then none
      else
        match mkChar? n with
        | some ch => some (ch, rest3)
        | none => none
    | _, _, _, _ => none
  | _ => none

/-- Decode one escape sequence (after the backslash). -/
def decodeEscape (l : List Char) : Option (Char × List Char) :=
  match l with
  | [] => none
  | e :: rest2 =>
    if e = '"' then some ('"', rest2)
    else if e = '\\' then some ('\\', rest2)
    else if e = '/' then some ('/', rest2)
    else if e = 'b' then some (Char.ofNatAux 8 (by decide), rest2)
    else if e = 'f' then some (Char.ofNatAux 12 (by decide), rest2)
    else if e = 'n' then some ('\n', rest2)
    else if e = 'r' then some ('\r', rest2)
    else if e = 't' then some ('\t', rest2)
    else if e = 'u' then decodeU rest2
    else none

/-- JSON string-body reader (fuel-indexed; one unit of fuel per decoded
character suffices).  Decodes up to the closing quote; returns the
decoded characters and the input left after the closing quote. -/
def parseStrBodyF : Nat → List Char → Option (List Char × List Char)
  | 0, _ => none
  | _ + 1, [] => none
  | fuel + 1, c :: rest =>
    if c = '"' then some ([], rest)
    else if c = '\\' then
      match decodeEscape rest with
      | some (ch, rest2) => (parseStrBodyF fuel rest2).map (fun p => (ch :: p.1, p.2))
      | none => none
    else (parseStrBodyF fuel rest).map (fun p => (c :: p.1, p.2))

/-- A JSON string literal: opening quote, then the body. -/
def parseJStr : List Char → Option (List Char × List Char)
  | c :: rest => if c = '"' then parseStrBodyF (rest.length + 1) rest else none
  | [] => none

/-- Read a run of decimal digits, accumulating the value. -/
def parseNatAcc : List Char → Nat → Nat × List Char
  | [], acc => (acc, [])
  | c :: rest, acc =>
      if c.isDigit then parseNatAcc rest (10 * acc + (c.toNat - 48))
      else (acc, c :: rest)

/-- A JSON non-negative integer: at least one digit. -/
def parseNumber : List Char → Option (Nat × List Char)
  | c :: rest => if c.isDigit then some (parseNatAcc (c :: rest) 0) else none
  | [] => none

/-- Consume an expected literal prefix. -/
def dropLit : List Char → List Char → Option (List Char)
  | [], l => some l
  | p :: ps, c :: cs => if c = p then dropLit ps cs else none
  | _ :: _, [] => none

/-- Strict reader of the canonical final output: requires the exact
`json.dumps(..., indent=2)` skeleton with the five keys in exactly the
canonical order `title, description, product_name, quantity,
brand_preference`, the quantity being a JSON integer and the rest JSON
strings; yields the five decoded values. -/
def parse_canonical (s : String) : Option (String × String × String × Nat × String) :=
  match dropLit "\x7b\n  \"title\": ".data s.data with
  | none => none
  | some l1 =>
    match parseJStr l1 with
    | none => none
    | some (t, l2) =>
      match dropLit ",\n  \"description\": ".data l2 with
      | none => none
      | some l3 =>
        match parseJStr l3 with
        | none => none
        | some (d, l4) =>
          match dropLit ",\n  \"product_name\": ".data l4 with
          | none => none
          | some l5 =>
            match parseJStr l5 with
            | none => none
            | some (p, l6) =>
              match dropLit ",\n  \"quantity\": ".data l6 with
              | none => none
              | some l7 =>
                match parseNumber l7 with
                | none => none
                | some (q, l8) =>
                  match dropLit ",\n  \"brand_preference\": ".data l8 with
                  | none => none
                  | some l9 =>
                    match parseJStr l9 with
                    | none => none
                    | some (b, l10) =>
                      if l10 = "\n\x7d".data then
                        some (String.mk t, String.mk d, String.mk p, q, String.mk b)
                      else none

/-! ## Round-trip lemmas for the canonical output -/

/-- Characters are determined by their scalar value. -/
theorem char_eq_of_toNat {a b : Char} (h : a.toNat = b.toNat) : a = b := by
  apply Char.eq_of_val_eq
  apply UInt32.eq_of_val_eq
  apply Fin.eq_of_val_eq
  exact h

/-- Decoding the scalar value of a character recovers the character. -/
theorem mkChar?_toNat (c : Char) : mkChar? c.toNat = some c := by
  have hv : c.toNat.isValidChar := c.valid
  simp only [mkChar?, dif_pos hv]
  congr 1

/-- `hexVal` inverts `hexDigitChar` on digit values. -/
theorem hexVal_hexDigitChar : ∀ k, k < 16 → hexVal (hexDigitChar k) = some k := by
  intro k hk
  interval_cases k <;> rfl

/-- A character's scalar value avoids the surrogate block and is below
0x110000. -/
theorem char_valid_nat (c : Char) :
    c.toNat < 55296 ∨ (57343 < c.toNat ∧ c.toNat < 1114112) := c.valid

/-- One parser step on an unescaped character. -/
theorem parse_plain_step (f : Nat) (l : List Char) (c : Char)
    (h1 : ¬c = '"') (h2 : ¬c = '\\') :
    parseStrBodyF (f + 1) (c :: l) =
      (parseStrBodyF f l).map (fun p => (c :: p.1, p.2)) := by
  rw [parseStrBodyF, if_neg h1, if_neg h2]

/-- The parser stops at the closing quote. -/
theorem parse_quote_step (f : Nat) (l : List Char) :
    parseStrBodyF (f + 1) ('"' :: l) = some ([], l) := by
  rw [parseStrBodyF, if_pos rfl]

/-- One parser step on a backslash escape. -/
theorem parse_escape_step (f : Nat) (l rest2 : List Char) (ch : Char)
    (h : decodeEscape l = some (ch, rest2)) :
    parseStrBodyF (f + 1) ('\\' :: l) =
      (parseStrBodyF f rest2).map (fun p => (ch :: p.1, p.2)) := by
  rw [parseStrBodyF, if_neg (by decide), if_pos rfl, h]

/-- A `u` after the backslash hands over to the `\uXXXX` decoder. -/
theorem decodeEscape_u (l : List Char) : decodeEscape ('u' :: l) = decodeU l := rfl

/-- The `\uXXXX` decoder inverts `hex4` on non-surrogate BMP values. -/
theorem decodeU_bmp (n : Nat) (c : Char) (l : List Char)
    (hn : n < 65536) (hlo : ¬(55296 ≤ n ∧ n ≤ 56319)) (hhi : ¬(56320 ≤ n ∧ n ≤ 57343))
    (hc : mkChar? n = some c) :
    decodeU (hex4 n ++ l) = some (c, l) := by
  have e1 := hexVal_hexDigitChar (n / 4096 % 16) (Nat.mod_lt _ (by omega))
  have e2 := hexVal_hexDigitChar (n / 256 % 16) (Nat.mod_lt _ (by omega))
  have e3 := hexVal_hexDigitChar (n / 16 % 16) (Nat.mod_lt _ (by omega))
  have e4 := hexVal_hexDigitChar (n % 16) (Nat.mod_lt _ (by omega))
  have hrec : 4096 * (n / 4096 % 16) + 256 * (n / 256 % 16) + 16 * (n / 16 % 16) + n % 16 = n := by
    omega
  simp only [hex4, List.cons_append, List.nil_append, decodeU, e1, e2, e3, e4, hrec,
    if_neg hlo, if_neg hhi, hc]

/-- The `\uXXXX` decoder recombines a surrogate pair written with
`hex4`. -/
theorem decodeU_pair_aux (a b : Nat) (c : Char) (l : List Char)
    (ha1 : 55296 ≤ a) (ha2 : a ≤ 56319) (hb1 : 56320 ≤ b) (hb2 : b ≤ 57343)
    (hc : mkChar? (65536 + (a - 55296) * 1024 + (b - 56320)) = some c) :
    decodeU (hex4 a ++ '\\' :: 'u' :: hex4 b ++ l) = some (c, l) := by
  have e1 := hexVal_hexDigitChar (a / 4096 % 16) (Nat.mod_lt _ (by omega))
  have e2 := hexVal_hexDigitChar (a / 256 % 16) (Nat.mod_lt _ (by omega))
  have e3 := hexVal_hexDigitChar (a / 16 % 16) (Nat.mod_lt _ (by omega))
  have e4 := hexVal_hexDigitChar (a % 16) (Nat.mod_lt _ (by omega))
  have f1 := hexVal_hexDigitChar (b / 4096 % 16) (Nat.mod_lt _ (by omega))
  have f2 := hexVal_hexDigitChar (b / 256 % 16) (Nat.mod_lt _ (by omega))
  have f3 := hexVal_hexDigitChar (b / 16 % 16) (Nat.mod_lt _ (by omega))
  have f4 := hexVal_hexDigitChar (b % 16) (Nat.mod_lt _ (by omega))
  have hrec1 : 4096 * (a / 4096 % 16) + 256 * (a / 256 % 16) + 16 * (a / 16 % 16) + a % 16 = a := by
    omega
  have hrec2 : 4096 * (b / 4096 % 16) + 256 * (b / 256 % 16) + 16 * (b / 16 % 16) + b % 16 = b := by
    omega
  have hsur : 55296 ≤ a ∧ a ≤ 56319 := ⟨ha1, ha2⟩
  have hsur2 : 56320 ≤ b ∧ b ≤ 57343 := ⟨hb1, hb2⟩
  simp only [hex4, List.cons_append, List.nil_append, decodeU, e1, e2, e3, e4, f1, f2, f3, f4,
    hrec1, hrec2, if_pos hsur, if_pos hsur2, hc]
  simp

/-- Surrogate-pair decoding at the values `jsonEscapeChar` emits for a
supplementary-plane scalar `n`. -/
theorem decodeU_pair (n : Nat) (c : Char) (l : List Char)
    (h1 : 65536 ≤ n) (h2 : n < 1114112) (hc : mkChar? n = some c) :
    decodeU (hex4 (55296 + (n - 65536) / 1024) ++
      '\\' :: 'u' :: hex4 (56320 + (n - 65536) % 1024) ++ l) = some (c, l) := by
  refine decodeU_pair_aux _ _ c l (by omega) (by omega) (by omega) (by omega) ?_
  have harg : 65536 + (55296 + (n - 65536) / 1024 - 55296) * 1024 +
      (56320 + (n - 65536) % 1024 - 56320) = n := by omega
  rw [harg, hc]

/-- Backslash-escape case of the per-character round trip. -/
theorem parse_char_backslash (f : Nat) (rest0 : List Char) :
    parseStrBodyF (f + 1) (jsonEscapeChar '\\' ++ rest0) =
      (parseStrBodyF f rest0).map (fun p => ('\\' :: p.1, p.2)) := by
  rw [show jsonEscapeChar '\\' ++ rest0 = '\\' :: ('\\' :: rest0) from rfl]
  rw [parse_escape_step f ('\\' :: rest0) rest0 '\\' rfl]

/-- Quote-escape case of the per-character round trip. -/
theorem parse_char_quote (f : Nat) (rest0 : List Char) :
    parseStrBodyF (f + 1) (jsonEscapeChar '"' ++ rest0) =
      (parseStrBodyF f rest0).map (fun p => ('"' :: p.1, p.2)) := by
  rw [show jsonEscapeChar '"' ++ rest0 = '\\' :: ('"' :: rest0) from rfl]
  rw [parse_escape_step f ('"' :: rest0) rest0 '"' rfl]

/-- Backspace-escape case of the per-character round trip. -/
theorem parse_char_bs (f : Nat) (c : Char) (rest0 : List Char)
    (h1 : ¬c = '\\') (h2 : ¬c = '"') (h3 : c.toNat = 8) :
    parseStrBodyF (f + 1) (jsonEscapeChar c ++ rest0) =
      (parseStrBodyF f rest0).map (fun p => (c :: p.1, p.2)) := by
  have hc : Char.ofNatAux 8 (by decide) = c := char_eq_of_toNat (by rw [h3]; rfl)
  rw [show jsonEscapeChar c = ['\\', 'b'] by
    simp only [jsonEscapeChar, if_neg h1, if_neg h2, if_pos h3]]
  rw [show ['\\', 'b'] ++ rest0 = '\\' :: ('b' :: rest0) from rfl]
  rw [parse_escape_step f ('b' :: rest0) rest0 (Char.ofNatAux 8 (by decide)) rfl]
  rw [hc]

/-- Tab-escape case of the per-character round trip. -/
theorem parse_char_tab (f : Nat) (c : Char) (rest0 : List Char)
    (h1 : ¬c = '\\') (h2 : ¬c = '"') (h3 : ¬c.toNat = 8) (h4 : c.toNat = 9) :
    parseStrBodyF (f + 1) (jsonEscapeChar c ++ rest0) =
      (parseStrBodyF f rest0).map (fun p => (c :: p.1, p.2)) := by
  have hc : '\t' = c := char_eq_of_toNat (by rw [h4]; rfl)
  rw [show jsonEscapeChar c = ['\\', 't'] by
    simp only [jsonEscapeChar, if_neg h1, if_neg h2, if_neg h3, if_pos h4]]
  rw [show ['\\', 't'] ++ rest0 = '\\' :: ('t' :: rest0) from rfl]
  rw [parse_escape_step f ('t' :: rest0) rest0 ('\t') rfl]
  rw [hc]

/-- Newline-escape case of the per-character round trip. -/
theorem parse_char_lf (f : Nat) (c : Char) (rest0 : List Char)
    (h1 : ¬c = '\\') (h2 : ¬c = '"') (h3 : ¬c.toNat = 8) (h4 : ¬c.toNat = 9)
    (h5 : c.toNat = 10) :
    parseStrBodyF (f + 1) (jsonEscapeChar c ++ rest0) =
      (parseStrBodyF f rest0).map (fun p => (c :: p.1, p.2)) := by
  have hc : '\n' = c := char_eq_of_toNat (by rw [h5]; rfl)
  rw [show jsonEscapeChar c = ['\\', 'n'] by
    simp only [jsonEscapeChar, if_neg h1, if_neg h2, if_neg h3, if_neg h4, if_pos h5]]
  rw [show ['\\', 'n'] ++ rest0 = '\\' :: ('n' :: rest0) from rfl]
  rw [parse_escape_step f ('n' :: rest0) rest0 ('\n') rfl]
  rw [hc]

/-- Form-feed-escape case of the per-character round trip. -/
theorem parse_char_ff (f : Nat) (c : Char) (rest0 : List Char)
    (h1 : ¬c = '\\') (h2 : ¬c = '"') (h3 : ¬c.toNat = 8) (h4 : ¬c.toNat = 9)
    (h5 : ¬c.toNat = 10) (h6 : c.toNat = 12) :
    parseStrBodyF (f + 1) (jsonEscapeChar c ++ rest0) =
      (parseStrBodyF f rest0).map (fun p => (c :: p.1, p.2)) := by
  have hc : Char.ofNatAux 12 (by decide) = c := char_eq_of_toNat (by rw [h6]; rfl)
  rw [show jsonEscapeChar c = ['\\', 'f'] by
    simp only [jsonEscapeChar, if_neg h1, if_neg h2, if_neg h3, if_neg h4, if_neg h5,
      if_pos h6]]
  rw [show ['\\', 'f'] ++ rest0 = '\\' :: ('f' :: rest0) from rfl]
  rw [parse_escape_step f ('f' :: rest0) rest0 (Char.ofNatAux 12 (by decide)) rfl]
  rw [hc]

/-- Carriage-return-escape case of the per-character round trip. -/
theorem parse_char_cr (f : Nat) (c : Char) (rest0 : List Char)
    (h1 : ¬c = '\\') (h2 : ¬c = '"') (h3 : ¬c.toNat = 8) (h4 : ¬c.toNat = 9)
    (h5 : ¬c.toNat = 10) (h6 : ¬c.toNat = 12) (h7 : c.toNat = 13) :
    parseStrBodyF (f + 1) (jsonEscapeChar c ++ rest0) =
      (parseStrBodyF f rest0).map (fun p => (c :: p.1, p.2)) := by
  have hc : '\r' = c := char_eq_of_toNat (by rw [h7]; rfl)
  rw [show jsonEscapeChar c = ['\\', 'r'] by
    simp only [jsonEscapeChar, if_neg h1, if_neg h2, if_neg h3, if_neg h4, if_neg h5,
      if_neg h6, if_pos h7]]
  rw [show ['\\', 'r'] ++ rest0 = '\\' :: ('r' :: rest0) from rfl]
  rw [parse_escape_step f ('r' :: rest0) rest0 ('\r') rfl]
  rw [hc]

/-- Printable-ASCII case of the per-character round trip. -/
theorem parse_char_plain (f : Nat) (c : Char) (rest0 : List Char)
    (h1 : ¬c = '\\') (h2 : ¬c = '"') (h3 : ¬c.toNat = 8) (h4 : ¬c.toNat = 9)
    (h5 : ¬c.toNat = 10) (h6 : ¬c.toNat = 12) (h7 : ¬c.toNat = 13)
    (h8 : 32 ≤ c.toNat ∧ c.toNat ≤ 126) :
    parseStrBodyF (f + 1) (jsonEscapeChar c ++ rest0) =
      (parseStrBodyF f rest0).map (fun p => (c :: p.1, p.2)) := by
  rw [show jsonEscapeChar c = [c] by
    simp only [jsonEscapeChar, if_neg h1, if_neg h2, if_neg h3, if_neg h4, if_neg h5,
      if_neg h6, if_neg h7, if_pos h8]]
  rw [show [c] ++ rest0 = c :: rest0 from rfl]
  rw [parse_plain_step f rest0 c h2 h1]

/-- `\uXXXX` (BMP) case of the per-character round trip. -/
theorem parse_char_bmp (f : Nat) (c : Char) (rest0 : List Char)
    (h1 : ¬c = '\\') (h2 : ¬c = '"') (h3 : ¬c.toNat = 8) (h4 : ¬c.toNat = 9)
    (h5 : ¬c.toNat = 10) (h6 : ¬c.toNat = 12) (h7 : ¬c.toNat = 13)
    (h8 : ¬(32 ≤ c.toNat ∧ c.toNat ≤ 126)) (h9 : c.toNat < 65536) :
    parseStrBodyF (f + 1) (jsonEscapeChar c ++ rest0) =
      (parseStrBodyF f rest0).map (fun p => (c :: p.1, p.2)) := by
  rw [show jsonEscapeChar c = '\\' :: 'u' :: hex4 c.toNat by
    simp only [jsonEscapeChar, if_neg h1, if_neg h2, if_neg h3, if_neg h4, if_neg h5,
      if_neg h6, if_neg h7, if_neg h8, if_pos h9]]
  have hval := char_valid_nat c
  have hdec : decodeEscape ('u' :: (hex4 c.toNat ++ rest0)) = some (c, rest0) := by
    rw [decodeEscape_u]
    exact decodeU_bmp c.toNat c _ h9 (by omega) (by omega) (mkChar?_toNat c)
  rw [show ('\\' :: 'u' :: hex4 c.toNat) ++ rest0 =
    '\\' :: ('u' :: (hex4 c.toNat ++ rest0)) by simp]
  rw [parse_escape_step f _ _ _ hdec]

/-- Surrogate-pair case of the per-character round trip. -/
theorem parse_char_pair (f : Nat) (c : Char) (rest0 : List Char)
    (h1 : ¬c = '\\') (h2 : ¬c = '"') (h3 : ¬c.toNat = 8) (h4 : ¬c.toNat = 9)
    (h5 : ¬c.toNat = 10) (h6 : ¬c.toNat = 12) (h7 : ¬c.toNat = 13)
    (h8 : ¬(32 ≤ c.toNat ∧ c.toNat ≤ 126)) (h9 : ¬c.toNat < 65536) :
    parseStrBodyF (f + 1) (jsonEscapeChar c ++ rest0) =
      (parseStrBodyF f rest0).map (fun p => (c :: p.1, p.2)) := by
  rw [show jsonEscapeChar c =
    ('\\' :: 'u' :: hex4 (55296 + (c.toNat - 65536) / 1024)) ++
      '\\' :: 'u' :: hex4 (56320 + (c.toNat - 65536) % 1024) by
    simp only [jsonEscapeChar, if_neg h1, if_neg h2, if_neg h3, if_neg h4, if_neg h5,
      if_neg h6, if_neg h7, if_neg h8, if_neg h9]]
  have hval := char_valid_nat c
  have hdec : decodeEscape ('u' :: (hex4 (55296 + (c.toNat - 65536) / 1024) ++
      ('\\' :: 'u' :: hex4 (56320 + (c.toNat - 65536) % 1024) ++ rest0))) =
      some (c, rest0) := by
    rw [decodeEscape_u]
    exact decodeU_pair c.toNat c _ (by omega) (by omega) (mkChar?_toNat c)
  rw [show (('\\' :: 'u' :: hex4 (55296 + (c.toNat - 65536) / 1024)) ++
      '\\' :: 'u' :: hex4 (56320 + (c.toNat - 65536) % 1024)) ++ rest0 =
    '\\' :: ('u' :: (hex4 (55296 + (c.toNat - 65536) / 1024) ++
      ('\\' :: 'u' :: hex4 (56320 + (c.toNat - 65536) % 1024) ++ rest0))) by simp]
  rw [parse_escape_step f _ _ _ hdec]

/-- The parser decodes the escape of any single character and
continues. -/
theorem parse_one_char (f : Nat) (c : Char) (rest0 : List Char) :
    parseStrBodyF (f + 1) (jsonEscapeChar c ++ rest0) =
      (parseStrBodyF f rest0).map (fun p => (c :: p.1, p.2)) := by
  by_cases h1 : c = '\\'
  · subst h1; exact parse_char_backslash f rest0
  by_cases h2 : c = '"'
  · subst h2; exact parse_char_quote f rest0
  by_cases h3 : c.toNat = 8
  · exact parse_char_bs f c rest0 h1 h2 h3
  by_cases h4 : c.toNat = 9
  · exact parse_char_tab f c rest0 h1 h2 h3 h4
  by_cases h5 : c.toNat = 10
  · exact parse_char_lf f c rest0 h1 h2 h3 h4 h5
  by_cases h6 : c.toNat = 12
  · exact parse_char_ff f c rest0 h1 h2 h3 h4 h5 h6
  by_cases h7 : c.toNat = 13
  · exact parse_char_cr f c rest0 h1 h2 h3 h4 h5 h6 h7
  by_cases h8 : 32 ≤ c.toNat ∧ c.toNat ≤ 126
  · exact parse_char_plain f c rest0 h1 h2 h3 h4 h5 h6 h7 h8
  by_cases h9 : c.toNat < 65536
  · exact parse_char_bmp f c rest0 h1 h2 h3 h4 h5 h6 h7 h8 h9
  · exact parse_char_pair f c rest0 h1 h2 h3 h4 h5 h6 h7 h8 h9

/-- The string-body parser inverts `escList`, given enough fuel. -/
theorem parseStrBodyF_escList (cs : List Char) :
    ∀ fuel rest, cs.length + 1 ≤ fuel →
      parseStrBodyF fuel (escList cs ++ '"' :: rest) = some (cs, rest) := by
  induction cs with
  | nil =>
      intro fuel rest hf
      match fuel, hf with
      | f + 1, _ =>
          show parseStrBodyF (f + 1) ('"' :: rest) = some ([], rest)
          exact parse_quote_step f rest
  | cons c cs ih =>
      intro fuel rest hf
      match fuel, hf with
      | f + 1, hf =>
        have hfe : cs.length + 1 ≤ f := by simp [List.length] at hf; omega
        show parseStrBodyF (f + 1) (escList (c :: cs) ++ '"' :: rest) = some (c :: cs, rest)
        rw [show escList (c :: cs) = jsonEscapeChar c ++ escList cs from rfl,
          List.append_assoc, parse_one_char f c _, ih f rest hfe]
        rfl

/-- Every character escapes to at least one character. -/
theorem jsonEscapeChar_length_pos (c : Char) : 1 ≤ (jsonEscapeChar c).length := by
  unfold jsonEscapeChar
  repeat' split
  all_goals first
  | decide
  | simp [hex4]

/-- Escaping never shortens a string. -/
theorem escList_length (cs : List Char) : cs.length ≤ (escList cs).length := by
  induction cs with
  | nil => simp [escList]
  | cons c cs ih =>
      show (c :: cs).length ≤ (jsonEscapeChar c ++ escList cs).length
      simp only [List.length_cons, List.length_append]
      have := jsonEscapeChar_length_pos c
      omega

/-- The JSON string reader inverts `jsonStr` and leaves the rest of
the input. -/
theorem parseJStr_jsonStr (s : String) (rest : List Char) :
    parseJStr ((jsonStr s).data ++ rest) = some (s.data, rest) := by
  have hdata : (jsonStr s).data ++ rest = '"' :: (escList s.data ++ '"' :: rest) := by
    simp [jsonStr, String.data_append]
  rw [hdata, parseJStr, if_pos rfl]
  refine parseStrBodyF_escList s.data _ rest ?_
  have h1 := escList_length s.data
  simp only [List.length_append, List.length_cons]
  omega

/-- Scalar value of a decimal digit character. -/
theorem digitChar_toNat : ∀ d, d < 10 → (digitChar d).toNat = 48 + d := by
  intro d hd
  interval_cases d <;> rfl

/-- Decimal digit characters satisfy `Char.isDigit`. -/
theorem digitChar_isDigit : ∀ d, d < 10 → (digitChar d).isDigit = true := by
  intro d hd
  interval_cases d <;> rfl

/-- The accumulator of `natDigits` is a suffix. -/
theorem natDigits_shift (n : Nat) : ∀ acc, natDigits n acc = natDigits n [] ++ acc := by
  induction n using Nat.strong_induction_on with
  | _ n ih =>
    intro acc
    match n with
    | 0 => simp [natDigits]
    | m + 1 =>
      rw [natDigits, natDigits,
        ih ((m + 1) / 10) (Nat.div_lt_self (Nat.succ_pos m) (by omega))
          (digitChar ((m + 1) % 10) :: acc),
        ih ((m + 1) / 10) (Nat.div_lt_self (Nat.succ_pos m) (by omega))
          (digitChar ((m + 1) % 10) :: [])]
      simp

/-- The digit reader stops at a non-digit. -/
theorem parseNatAcc_stop (rest : List Char) (a : Nat)
    (hr : ∀ c, rest.head? = some c → c.isDigit = false) :
    parseNatAcc rest a = (a, rest) := by
  match rest with
  | [] => rfl
  | c :: r =>
      have := hr c rfl
      rw [parseNatAcc, if_neg (by simp [this])]

theorem natDigits_ne_nil (n : Nat) (hn : 0 < n) : natDigits n [] ≠ [] := by
  match n, hn with
  | m + 1, _ =>
    rw [natDigits, natDigits_shift]
    simp

/-- Reading the digits of `n` accumulates `n` and continues. -/
theorem parseNatAcc_natDigits (n : Nat) : ∀ a rest, 0 < n →
    parseNatAcc (natDigits n [] ++ rest) a =
      parseNatAcc rest (a * 10 ^ (natDigits n []).length + n) := by
  induction n using Nat.strong_induction_on with
  | _ n ih =>
    intro a rest hn
    match n, hn with
    | m + 1, _ =>
      by_cases hq : (m + 1) / 10 = 0
      · have hm : m + 1 < 10 := by omega
        have hmod : (m + 1) % 10 = m + 1 := Nat.mod_eq_of_lt hm
        have hd : natDigits (m + 1) [] = [digitChar (m + 1)] := by
          rw [natDigits, hq, hmod, natDigits]
        rw [hd]
        show parseNatAcc (digitChar (m + 1) :: rest) a = _
        rw [parseNatAcc, if_pos (by simp [digitChar_isDigit (m + 1) hm]),
          digitChar_toNat (m + 1) hm]
        simp only [List.length_singleton, pow_one]
        congr 1
        omega
      · have hlt : (m + 1) / 10 < m + 1 := Nat.div_lt_self (Nat.succ_pos m) (by omega)
        have hd : natDigits (m + 1) [] =
            natDigits ((m + 1) / 10) [] ++ [digitChar ((m + 1) % 10)] := by
          rw [natDigits, natDigits_shift]
        have hmlt : (m + 1) % 10 < 10 := Nat.mod_lt _ (by omega)
        rw [hd, List.append_assoc, List.singleton_append,
          ih ((m + 1) / 10) hlt a (digitChar ((m + 1) % 10) :: rest) (by omega),
          parseNatAcc, if_pos (by simp [digitChar_isDigit _ hmlt]),
          digitChar_toNat _ hmlt]
        have h48 : 48 + (m + 1) % 10 - 48 = (m + 1) % 10 := by omega
        rw [h48, List.length_append, List.length_singleton]
        congr 1
        calc 10 * (a * 10 ^ (natDigits ((m + 1) / 10) []).length + (m + 1) / 10) + (m + 1) % 10
            = a * (10 ^ (natDigits ((m + 1) / 10) []).length * 10) +
              (10 * ((m + 1) / 10) + (m + 1) % 10) := by ring
          _ = a * 10 ^ ((natDigits ((m + 1) / 10) []).length + 1) + (m + 1) := by
              rw [Nat.div_add_mod, pow_succ]

/-- A positive number renders with a digit character first. -/
theorem natDigits_head_digit (n : Nat) (hn : 0 < n) :
    ∃ d tl, d < 10 ∧ natDigits n [] = digitChar d :: tl := by
  induction n using Nat.strong_induction_on with
  | _ n ih =>
    match n, hn with
    | m + 1, _ =>
      by_cases hq : (m + 1) / 10 = 0
      · refine ⟨m + 1, [], by omega, ?_⟩
        rw [natDigits, hq, Nat.mod_eq_of_lt (by omega), natDigits]
      · obtain ⟨d, tl, hd, he⟩ :=
          ih ((m + 1) / 10) (Nat.div_lt_self (Nat.succ_pos m) (by omega)) (by omega)
        refine ⟨d, tl ++ [digitChar ((m + 1) % 10)], hd, ?_⟩
        rw [natDigits, natDigits_shift, he]
        simp

/-- The JSON integer reader inverts `natLit` when a non-digit
follows. -/
theorem parseNumber_natLit (n : Nat) (rest : List Char)
    (hr : ∀ c, rest.head? = some c → c.isDigit = false) :
    parseNumber ((natLit n).data ++ rest) = some (n, rest) := by
  by_cases hn : n = 0
  · subst hn
    show parseNumber ('0' :: rest) = some (0, rest)
    rw [parseNumber, if_pos (by decide), parseNatAcc, if_pos (by decide),
      show 10 * 0 + ('0'.toNat - 48) = 0 from rfl, parseNatAcc_stop rest 0 hr]
  · obtain ⟨d, tl, hd, he⟩ := natDigits_head_digit n (by omega)
    have hlit : (natLit n).data = natDigits n [] := by
      rw [natLit, if_neg hn]
    rw [hlit, he]
    show parseNumber (digitChar d :: (tl ++ rest)) = some (n, rest)
    rw [parseNumber, if_pos (by simp [digitChar_isDigit d hd]),
      show digitChar d :: (tl ++ rest) = (digitChar d :: tl) ++ rest from rfl, ← he,
      parseNatAcc_natDigits n 0 rest (by omega), parseNatAcc_stop rest _ hr]
    simp

/-- Consuming a literal prefix succeeds on that very prefix. -/
theorem dropLit_self (p : List Char) : ∀ l, dropLit p (p ++ l) = some l := by
  induction p with
  | nil => intro l; rfl
  | cons a ps ih =>
      intro l
      rw [List.cons_append, dropLit, if_pos rfl]
      exact ih l

/-- The canonical output split into its eleven pieces. -/
theorem generate_final_output_data (t d p b : String) (q : Nat) (ot : Option String) :
    (generate_final_output
      { title := some t
        description := some d
        order_type := ot
        product_name := some p
        quantity := some q
        brand_preference := some b }).data =
      "\x7b\n  \"title\": ".data ++ ((jsonStr t).data ++ (",\n  \"description\": ".data ++
        ((jsonStr d).data ++ (",\n  \"product_name\": ".data ++ ((jsonStr p).data ++
        (",\n  \"quantity\": ".data ++ ((natLit q).data ++ (",\n  \"brand_preference\": ".data ++
        ((jsonStr b).data ++ "\n\x7d".data))))))))) := by
  simp [generate_final_output, String.data_append, List.append_assoc]

/-- C8: for every OrderRecord whose five output fields are populated
(title, description, product_name, brand_preference strings and
quantity an integer), the canonical final output is a JSON object
whose keys come in the exact order `title, description, product_name,
quantity, brand_preference` (the strict reader `parse_canonical`
accepts no other order), with quantity a JSON integer and the other
values JSON strings; re-parsing yields exactly the original five
values with their original types. -/
theorem canonical_output_roundtrip (t d p b : String) (q : Nat) (ot : Option String) :
    parse_canonical (generate_final_output
      { title := some t
        description := some d
        order_type := ot
        product_name := some p
        quantity := some q
        brand_preference := some b }) =
      some (t, d, p, q, b) := by
  have hrq : ∀ c, ((",\n  \"brand_preference\": ".data ++
      ((jsonStr b).data ++ "\n\x7d".data))).head? = some c → c.isDigit = false := by
    intro c hc
    have h2 : ((",\n  \"brand_preference\": ".data ++
        ((jsonStr b).data ++ "\n\x7d".data))).head? = some ',' := rfl
    rw [h2] at hc
    cases hc
    rfl
  have hq' := parseNumber_natLit q (",\n  \"brand_preference\": ".data ++
    ((jsonStr b).data ++ "\n\x7d".data)) hrq
  unfold parse_canonical
  rw [generate_final_output_data t d p b q ot]
  simp only [dropLit_self, parseJStr_jsonStr, hq']
  rfl
